import Mathlib

/-!
Verification development for the TFTP endpoint in this repository.

The engine is shallowly embedded: byte buffers are lists of naturals
(each intended < 256), u16 arithmetic is explicit mod 65536, fallible
Rust functions return Except or Option (none models a Rust panic at an
unwrap), and the UDP socket is replaced by an explicit list of network
events consumed in order.  Definitions mirror the corresponding Rust
items of src/tftp and src/client.rs; names follow the source.
-/

namespace Tftp

/-- Constants from tftp::consts. -/
def DEFAULT_BLOCK_SIZE : Nat := 512

/-- Default timeout in seconds (tftp::consts::DEFAULT_TIMEOUT_SECS). -/
def DEFAULT_TIMEOUT_SECS : Nat := 5

/-- Retransmission cap (tftp::consts::DEFAULT_RETRANSMIT_ATTEMPTS). -/
def DEFAULT_RETRANSMIT_ATTEMPTS : Nat := 5

/-- Opcode of a read request. -/
def OPCODE_RRQ : Nat := 1

/-- Opcode of a write request. -/
def OPCODE_WRQ : Nat := 2

/-- Opcode of a data packet. -/
def OPCODE_DATA : Nat := 3

/-- Opcode of an acknowledgement. -/
def OPCODE_ACK : Nat := 4

/-- Opcode of an error packet. -/
def OPCODE_ERROR : Nat := 5

/-- Opcode of an option acknowledgement. -/
def OPCODE_OACK : Nat := 6

/-- Option key for the blocksize option. -/
def OPT_BLOCKSIZE_IDENT : String := "blksize"

/-- Option key for the timeout option. -/
def OPT_TIMEOUT_IDENT : String := "timeout"

/-- Option key for the transfer-size option. -/
def OPT_TRANSFERSIZE_IDENT : String := "tsize"

/-- Big-endian 16-bit value from two bytes (u16::from_be_bytes). -/
def u16be (hi lo : Nat) : Nat := hi * 256 + lo

/-- Parse failures of the packet codec (tftp::error::ParseError). -/
inductive ParseError
| UnexpectedEof
| MalformedPacket
| UnexpectedOpcode
| InvalidOpcode (x : Nat)
| NotNullTerminated
| NotAscii
| UnknownTxMode
deriving DecidableEq, Repr

/-- Wire error codes (tftp::error::ErrorCode). -/
inductive ErrorCode
| NotDefined
| FileNotFound
| AccessViolation
| StorageError
| IllegalOperation
| UnknownTid
| FileExists
| NoSuchUser
| InvalidOption
deriving DecidableEq, Repr

/-- ErrorCode::try_from for u16 values: the nine RFC codes 0..=8 succeed,
every other value is rejected with MalformedPacket. -/
def ErrorCode.tryFrom (value : Nat) : Except ParseError ErrorCode :=
  if value = 0 then .ok .NotDefined
  else if value = 1 then .ok .FileNotFound
  else if value = 2 then .ok .AccessViolation
  else if value = 3 then .ok .StorageError
  else if value = 4 then .ok .IllegalOperation
  else if value = 5 then .ok .UnknownTid
  else if value = 6 then .ok .FileExists
  else if value = 7 then .ok .NoSuchUser
  else if value = 8 then .ok .InvalidOption
  else .error .MalformedPacket

/-- Request kinds (tftp::RequestKind). -/
inductive RequestKind
| Rrq
| Wrq
deriving DecidableEq, Repr

/-- Transfer modes (tftp::Mode). -/
inductive Mode
| NetAscii
| Octet
deriving DecidableEq, Repr

/-- Packet classification (tftp::packet::PacketKind). -/
inductive PacketKind
| Req (k : RequestKind)
| Data
| Ack
| Error
| OAck
deriving DecidableEq, Repr

/-- Parsed packets (tftp::packet::TftpPacket).  Each variant is a view
over the raw datagram bytes, as in the Rust zero-copy representation.
The Err variant mirrors TftpPacket::Err; note that try_from_buf below
never produces it, faithfully to the source. -/
inductive TftpPacket
| Req (buf : List Nat)
| Data (buf : List Nat)
| Ack (buf : List Nat)
| OAck (buf : List Nat)
| Err (buf : List Nat)
deriving DecidableEq, Repr

/-- First two bytes as a big-endian opcode.  Rust indexes buf[0] and
buf[1] unconditionally (panicking on a sub-2-byte slice); the claims
only involve longer buffers, missing bytes default to 0 here. -/
def opcode (buf : List Nat) : Nat := u16be (buf.getD 0 0) (buf.getD 1 0)

/-- TftpReq::check_from_slice. -/
def TftpReq.checkFromSlice (buf : List Nat) : Except ParseError Unit :=
  if buf.length < 6 then .error .UnexpectedEof
  else if opcode buf = OPCODE_RRQ ∨ opcode buf = OPCODE_WRQ then .ok ()
  else .error .UnexpectedOpcode

/-- TftpData::check_from_slice. -/
def TftpData.checkFromSlice (buf : List Nat) : Except ParseError Unit :=
  if buf.length < 4 then .error .UnexpectedEof
  else if opcode buf = OPCODE_DATA then .ok ()
  else .error .UnexpectedOpcode

/-- TftpAck::check_from_slice. -/
def TftpAck.checkFromSlice (buf : List Nat) : Except ParseError Unit :=
  if buf.length < 4 then .error .UnexpectedEof
  else if opcode buf = OPCODE_ACK then .ok ()
  else .error .UnexpectedOpcode

/-- TftpOAck::check_from_slice. -/
def TftpOAck.checkFromSlice (buf : List Nat) : Except ParseError Unit :=
  if buf.length < 6 then .error .UnexpectedEof
  else if opcode buf = OPCODE_OACK then .ok ()
  else .error .UnexpectedOpcode

/-- TftpError::check_from_slice, verbatim from the source: the opcode is
compared against OPCODE_OACK (sic, packet/mod.rs line 404), not against
OPCODE_ERROR, so a genuine ERROR datagram never passes this check. -/
def TftpErrorPkt.checkFromSlice (buf : List Nat) : Except ParseError Unit :=
  if buf.length < 6 then .error .UnexpectedEof
  else if opcode buf = OPCODE_OACK then .ok ()
  else .error .UnexpectedOpcode

/-- TftpError::error_code: reads the u16 at bytes 2..3 and unwraps
ErrorCode::try_from; none models the panic of the unwrap on a code
outside 0..=8. -/
def TftpErrorPkt.errorCode (buf : List Nat) : Option ErrorCode :=
  (ErrorCode.tryFrom (u16be (buf.getD 2 0) (buf.getD 3 0))).toOption

/-- TftpPacket::try_from_buf: dispatch on the big-endian opcode.  The
source has match arms for RRQ, WRQ, ACK, OACK and DATA only; every other
opcode, including OPCODE_ERROR = 5, falls through to InvalidOpcode. -/
def tryFromBuf (buf : List Nat) : Except ParseError TftpPacket :=
  let op := opcode buf
  if op = OPCODE_RRQ ∨ op = OPCODE_WRQ then
    (TftpReq.checkFromSlice buf).map fun _ => .Req buf
  else if op = OPCODE_ACK then
    (TftpAck.checkFromSlice buf).map fun _ => .Ack buf
  else if op = OPCODE_OACK then
    (TftpOAck.checkFromSlice buf).map fun _ => .OAck buf
  else if op = OPCODE_DATA then
    (TftpData.checkFromSlice buf).map fun _ => .Data buf
  else .error (.InvalidOpcode op)

/-- TftpPacket::packet_kind.  For a request the kind is re-read from the
opcode bytes as TftpReq::kind does (1 is Rrq, 2 is Wrq; other values are
unreachable behind check_from_slice). -/
def TftpPacket.packetKind : TftpPacket → PacketKind
| .Req buf => .Req (if opcode buf = OPCODE_WRQ then .Wrq else .Rrq)
| .Data _ => .Data
| .Ack _ => .Ack
| .OAck _ => .OAck
| .Err _ => .Error

/-- TftpData::blocknum: big-endian u16 at bytes 2..3.  Only meaningful on
the Data variant (the callers destructure behind a kind check). -/
def TftpPacket.dataBlocknum : TftpPacket → Nat
| .Data buf => u16be (buf.getD 2 0) (buf.getD 3 0)
| _ => 0

/-- TftpData::data: payload bytes after the 4-byte header. -/
def TftpPacket.dataPayload : TftpPacket → List Nat
| .Data buf => buf.drop 4
| _ => []

/-- TftpAck::blocknum: big-endian u16 at bytes 2..3. -/
def TftpPacket.ackBlocknum : TftpPacket → Nat
| .Ack buf => u16be (buf.getD 2 0) (buf.getD 3 0)
| _ => 0

/-- tftp::utils::copy: copy up to min(src.len, dst.len) elements from the
front of src over the front of dst (ptr::copy_nonoverlapping of that
many elements), returning the new dst contents and the count.  Elements
of dst past the copied prefix are untouched. -/
def copy (src dst : List Nat) : List Nat × Nat :=
  let len := min src.length dst.length
  (src.take len ++ dst.drop len, len)

/-- Negotiable options (tftp::options::TftpOption).  The Timeout payload
is the Duration in whole seconds, as built by Duration::from_secs. -/
inductive TftpOption
| Blocksize (n : Nat)
| Timeout (secs : Nat)
| TransferSize (n : Nat)
deriving DecidableEq, Repr

/-- Effective connection options (tftp::options::TftpOptions). -/
structure TftpOptions where
  blocksize : Nat
  timeoutSecs : Nat
  transferSize : Nat
deriving DecidableEq, Repr

/-- TftpOptions::default: blocksize 512, timeout 5 s, transfer size 0. -/
def TftpOptions.default : TftpOptions :=
  ⟨DEFAULT_BLOCK_SIZE, DEFAULT_TIMEOUT_SECS, 0⟩

/-- TftpOptions::merge_from (same per-option assignment as
TftpConnection::set_options): each negotiated option overwrites the
corresponding field, later entries last. -/
def TftpOptions.mergeFrom (o : TftpOptions) (opts : List TftpOption) : TftpOptions :=
  opts.foldl
    (fun acc opt =>
      match opt with
      | .Blocksize n => { acc with blocksize := n }
      | .Timeout t => { acc with timeoutSecs := t }
      | .TransferSize n => { acc with transferSize := n })
    o

/-- Base-10 unsigned integer parse bounded by the integer type, as
uN::from_str_radix(v, 10): at least one digit, digits only, and the
value must fit (bound is 2 to the width).  The Rust parser also accepts
one leading plus sign, which no claim involves and which is not
modelled. -/
def parseRadix10 (s : String) (bound : Nat) : Option Nat :=
  let cs := s.data
  if cs.isEmpty then none
  else if cs.all Char.isDigit then
    let v := cs.foldl (fun acc c => acc * 10 + (c.toNat - 48)) 0
    if v < bound then some v else none
  else none

/-- Lookup in the raw option map.  The Rust HashMap is built by
repeated insert, so for duplicate keys the last occurrence wins. -/
def lookupRaw (raw : List (String × String)) (key : String) : Option String :=
  (raw.reverse.find? (fun p => p.1 == key)).map Prod.snd

/-- OptionNegotiation::parse_options: for each of the three known keys
present, the value must parse into the respective integer type (u16 for
blksize, u8 for timeout, u32 for tsize); a malformed value fails the
whole parse (none models the Err(()) return).  No range check beyond the
integer width is performed.  Unknown keys are ignored. -/
def parseOptions (raw : List (String × String)) : Option (List TftpOption) := do
  let o1 ← match lookupRaw raw OPT_BLOCKSIZE_IDENT with
    | none => pure []
    | some v =>
      match parseRadix10 v 65536 with
      | none => none
      | some n => pure [TftpOption.Blocksize n]
  let o2 ← match lookupRaw raw OPT_TIMEOUT_IDENT with
    | none => pure o1
    | some v =>
      match parseRadix10 v 256 with
      | none => none
      | some n => pure (o1 ++ [TftpOption.Timeout n])
  match lookupRaw raw OPT_TRANSFERSIZE_IDENT with
  | none => pure o2
  | some v =>
    match parseRadix10 v 4294967296 with
    | none => none
    | some n => pure (o2 ++ [TftpOption.TransferSize n])

/-- Bytes (all < 128) decoded to a string, as str::from_utf8 on the
ASCII plane; none models the Err branch (mapped to NotAscii).  Multibyte
UTF-8, which from_utf8 would accept, is not involved in any claim and
decodes to none here. -/
def asciiString (bs : List Nat) : Option String :=
  if bs.all (· < 128) then some (String.mk (bs.map Char.ofNat)) else none

/-- Key/value extraction shared by TftpReq::options and
TftpOAck::options: the byte region is split on NUL; segments are taken
in pairs until a segment shorter than 2 bytes is met (loop break); a key
without a following value is MalformedPacket; non-decodable text is
NotAscii. -/
def pairsFromSegs : List (List Nat) → Except ParseError (List (String × String))
| [] => .ok []
| seg :: rest =>
  if seg.length < 2 then .ok []
  else
    match asciiString seg with
    | none => .error .NotAscii
    | some key =>
      match rest with
      | [] => .error .MalformedPacket
      | v :: rest2 =>
        match asciiString v with
        | none => .error .NotAscii
        | some val => (pairsFromSegs rest2).map (fun l => (key, val) :: l)

/-- TftpOAck::options: split everything after the opcode on NUL and read
key/value pairs. -/
def oackOptionPairs (buf : List Nat) : Except ParseError (List (String × String)) :=
  pairsFromSegs (List.splitOn 0 (buf.drop 2))

deriving instance DecidableEq for Except

/-- Socket addresses (std::net::SocketAddr), abstracted to a numeric ip
and port; equality compares both, as the Rust != on SocketAddr does. -/
structure SockAddr where
  ip : Nat
  port : Nat
deriving DecidableEq, Repr

/-- Receive failures (tftp::ReceiveError).  LowerLayer drops its payload
(the io::Error is not inspected by any caller the claims involve). -/
inductive ReceiveError
| UnexpectedPacketKind
| UnexpectedBlockAck
| Timeout
| UnknownTid
| InvalidPacket (e : ParseError)
| LowerLayer
deriving DecidableEq, Repr

/-- One observable outcome of UdpSocket::recv_from: either a datagram
with its source address and raw bytes, a read timeout (WouldBlock or
TimedOut), or another I/O error. -/
inductive NetEvent
| datagram (src : SockAddr) (raw : List Nat)
| timeout
| ioError
deriving DecidableEq, Repr

/-- TftpConnection::receive_packet_from: parse the datagram with
try_from_buf, then compare the packet kind against the expectation.
Timeouts and I/O errors map to Timeout and LowerLayer as in the source
match on ErrorKind. -/
def receivePacketFrom (expect : Option PacketKind) (e : NetEvent) :
    Except ReceiveError (TftpPacket × SockAddr) :=
  match e with
  | .timeout => .error .Timeout
  | .ioError => .error .LowerLayer
  | .datagram src raw =>
    match tryFromBuf raw with
    | .error pe => .error (.InvalidPacket pe)
    | .ok pkt =>
      match expect with
      | some k => if pkt.packetKind = k then .ok (pkt, src) else .error .UnexpectedPacketKind
      | none => .ok (pkt, src)

/-- TftpConnection::receive_packet: receive_packet_from followed by the
TID check.  When the socket is connected (peer is some p) a datagram
from any other source yields UnknownTid; no packet of any kind is sent
back to the offending source on this path (the source sends nothing
here). -/
def receivePacket (peer : Option SockAddr) (expect : Option PacketKind) (e : NetEvent) :
    Except ReceiveError TftpPacket :=
  match receivePacketFrom expect e with
  | .error er => .error er
  | .ok (pkt, src) =>
    match peer with
    | some p => if p ≠ src then .error .UnknownTid else .ok pkt
    | none => .ok pkt

/-- TftpConnection::send_and_receive_ack, as a loop over the pending
network events.  Each iteration first consults the cancellation token
(modelled as a constant flag for the call), then transmits the DATA
packet once and waits for a reply; sends counts these transmissions.
On a received ACK whose block number differs from the outstanding DATA
block the call returns UnexpectedBlockAck at once.  On any receive
error the source checks attempts > DEFAULT_RETRANSMIT_ATTEMPTS before
incrementing attempts, and returns the last error once the check
trips.  none models starvation: the event list ran out while the Rust
loop would still be blocking on the socket. -/
def sarLoop (cancelled : Bool) (peer : Option SockAddr) (dataBlock : Nat) :
    Nat → Nat → List NetEvent → Option (Except ReceiveError Unit × Nat × List NetEvent)
| attempts, sends, evs =>
  if cancelled then some (.error .Timeout, sends, evs)
  else
    match evs with
    | [] => none
    | e :: rest =>
      match receivePacket peer (some .Ack) e with
      | .ok pkt =>
        if pkt.ackBlocknum ≠ dataBlock then some (.error .UnexpectedBlockAck, sends + 1, rest)
        else some (.ok (), sends + 1, rest)
      | .error er =>
        if attempts > DEFAULT_RETRANSMIT_ATTEMPTS then some (.error er, sends + 1, rest)
        else sarLoop cancelled peer dataBlock (attempts + 1) (sends + 1) rest

/-- Entry point of send_and_receive_ack: attempts and the send counter
start at 0. -/
def sendAndReceiveAck (cancelled : Bool) (peer : Option SockAddr) (dataBlock : Nat)
    (evs : List NetEvent) : Option (Except ReceiveError Unit × Nat × List NetEvent) :=
  sarLoop cancelled peer dataBlock 0 0 evs

/-- How a receive-data run ended. -/
inductive RfEnd
| done
| dropped (e : ReceiveError)
| cancelled
| starved
deriving DecidableEq, Repr

/-- Observable behaviour of a receive-data run: payloads written to the
stream in order, ACK block numbers sent in order, ERROR packets emitted
(drop_with_err), and how the run ended.  Stream writes are assumed to
succeed, so the StorageError emission path of the source is never taken
here. -/
structure RfResult where
  writes : List (List Nat)
  acks : List Nat
  errorsSent : List ErrorCode
  ending : RfEnd
deriving DecidableEq, Repr

/-- Main loop of tftp::receive_file: at each head consult cancellation,
then receive expecting DATA; any receive error (including UnknownTid)
makes the function return via conn.drop(), sending nothing.  A DATA
whose block number is not blocknum.wrapping_add(1) is skipped with
continue - no write, no ACK.  The expected DATA is written, ACKed with
the advanced (mod 65536) counter, and a payload shorter than blocksize
breaks the loop. -/
def receiveLoop (cancelled : Bool) (peer : Option SockAddr) (bs : Nat) :
    Nat → List NetEvent → RfResult
| _, [] => ⟨[], [], [], .starved⟩
| blocknum, e :: rest =>
  if cancelled then ⟨[], [], [], .cancelled⟩
  else
    match receivePacket peer (some .Data) e with
    | .error er => ⟨[], [], [], .dropped er⟩
    | .ok pkt =>
      if pkt.dataBlocknum ≠ (blocknum + 1) % 65536 then
        receiveLoop cancelled peer bs blocknum rest
      else
        let bn := (blocknum + 1) % 65536
        if pkt.dataPayload.length < bs then ⟨[pkt.dataPayload], [bn], [], .done⟩
        else
          let r := receiveLoop cancelled peer bs bn rest
          ⟨pkt.dataPayload :: r.writes, bn :: r.acks, r.errorsSent, r.ending⟩

/-- tftp::receive_file: blocknum starts at 0.  When the driver passes in
an initial DATA (the no-OACK fallback), its payload is written first,
the counter advances 0 to 1, ACK 1 is sent, and the function returns at
once when that payload is shorter than blocksize; the initial packet's
own block-number bytes are never read.  Otherwise the main loop runs
from 0. -/
def receiveFile (cancelled : Bool) (peer : Option SockAddr) (bs : Nat)
    (initData : Option (List Nat)) (evs : List NetEvent) : RfResult :=
  match initData with
  | none => receiveLoop cancelled peer bs 0 evs
  | some p =>
    if p.length < bs then ⟨[p], [1], [], .done⟩
    else
      let r := receiveLoop cancelled peer bs 1 evs
      ⟨p :: r.writes, 1 :: r.acks, r.errorsSent, r.ending⟩

/-- Number of DATA blocks send_file derives from the file size: size
divided by blocksize, plus one when a remainder exists. -/
def nBlocks (file : List Nat) (bs : Nat) : Nat :=
  file.length / bs + (if file.length % bs ≠ 0 then 1 else 0)

/-- Bytes handed to the DATA packet of block i (1-based): the i-th
sequential read of up to bs bytes from the stream
(BufReader take(bs).read_to_end). -/

def chunk (file : List Nat) (bs i : Nat) : List Nat :=
  (file.drop ((i - 1) * bs)).take bs

/-- Observable behaviour of a send-data run: the DATA packets handed to
send_and_receive_ack as (block number, payload), in order
(retransmissions of the same packet live inside the primitive and are
not listed), whether the run completed, and ERROR packets emitted. -/
structure SendFileResult where
  sent : List (Nat × List Nat)
  ok : Bool
  errorsSent : List ErrorCode
deriving DecidableEq, Repr

/-- The for-loop of tftp::send_file over block numbers base..base+count-1
(count iterations): at each head consult cancellation (conn.drop on
cancel), read the next chunk, stamp the DATA packet with the block
number as u16 (mod 65536), and run send_and_receive_ack; an error from
the primitive aborts via conn.drop.  Threads the unconsumed network
events; none models starvation inside the primitive. -/
def sendBlocks (cancelled : Bool) (peer : Option SockAddr) (file : List Nat) (bs : Nat) :
    Nat → Nat → List NetEvent → Option (List (Nat × List Nat) × Bool × List NetEvent)
| 0, _, evs => some ([], true, evs)
| count + 1, base, evs =>
  if cancelled then some ([], false, evs)
  else
    let bn := base % 65536
    let payload := chunk file bs base
    match sendAndReceiveAck cancelled peer bn evs with
    | none => none
    | some (.error _, _, evs2) => some ([(bn, payload)], false, evs2)
    | some (.ok _, _, evs2) =>
      match sendBlocks cancelled peer file bs count (base + 1) evs2 with
      | none => none
      | some (l, okRest, evs3) => some ((bn, payload) :: l, okRest, evs3)

/-- tftp::send_file: NetAscii is rejected with an IllegalOperation ERROR
before anything is sent.  Otherwise the block loop runs for
nBlocks file bs iterations from block 1; when the file size is an exact
multiple of the blocksize a final empty DATA is sent whose block number
is one more (u16 wrapping add, release semantics; a debug build would
panic at 65535) than the number left in the packet buffer by the last
loop iteration - that is nBlocks mod 65536, or 0 for an empty file
since the buffer was zero-initialised - and the run only completes when
that empty block is acknowledged too. -/
def sendFile (cancelled : Bool) (peer : Option SockAddr) (mode : Mode) (file : List Nat)
    (bs : Nat) (evs : List NetEvent) : Option SendFileResult :=
  if mode = Mode.NetAscii then some ⟨[], false, [ErrorCode.IllegalOperation]⟩
  else
    match sendBlocks cancelled peer file bs (nBlocks file bs) 1 evs with
    | none => none
    | some (l, false, _) => some ⟨l, false, []⟩
    | some (l, true, evs2) =>
      if file.length % bs = 0 then
        match sendAndReceiveAck cancelled peer ((nBlocks file bs % 65536 + 1) % 65536) evs2 with
        | none => none
        | some (.ok _, _, _) =>
          some ⟨l ++ [((nBlocks file bs % 65536 + 1) % 65536, [])], true, []⟩
        | some (.error _, _, _) =>
          some ⟨l ++ [((nBlocks file bs % 65536 + 1) % 65536, [])], false, []⟩
      else some ⟨l, true, []⟩

/-- Observable outcome of TftpClient::get after the request was sent:
the effective options at transfer entry, the address the socket was
connected to (the locked peer), and the receive-data run when one was
entered. -/
structure GetResult where
  options : TftpOptions
  peer : Option SockAddr
  rf : Option RfResult
deriving DecidableEq, Repr

/-- TftpClient::get from the point where the first server reply is
received with receive_packet_from(buf, None).  On an OACK from the
server's IP the client connects to the reply's source, parses and
applies the option set (a malformed OACK panics at an unwrap: none),
sends ACK 0 and enters receive-data with no initial block.  On a DATA
from the server's IP the client leaves the default options untouched,
connects to the original server address, and enters receive-data with
the first payload passed through.  A reply from a foreign IP, an
unexpected packet kind, or a receive error only logs and returns.  The
ACK 0 transmission of the OACK branch is not recorded. -/
def clientGet (server : SockAddr) (firstReply : NetEvent) (evs : List NetEvent) :
    Option GetResult :=
  match receivePacketFrom none firstReply with
  | .error _ => some ⟨TftpOptions.default, none, none⟩
  | .ok (pkt, remote) =>
    match pkt with
    | .OAck buf =>
      if remote.ip ≠ server.ip then some ⟨TftpOptions.default, none, none⟩
      else
        match oackOptionPairs buf with
        | .error _ => none
        | .ok pairs =>
          match parseOptions pairs with
          | none => none
          | some opts =>
            let o := TftpOptions.default.mergeFrom opts
            some ⟨o, some remote, some (receiveFile false (some remote) o.blocksize none evs)⟩
    | .Data _ =>
      if remote.ip ≠ server.ip then some ⟨TftpOptions.default, none, none⟩
      else
        some ⟨TftpOptions.default, some server,
          some (receiveFile false (some server) TftpOptions.default.blocksize
            (some pkt.dataPayload) evs)⟩
    | _ => some ⟨TftpOptions.default, none, none⟩

/-- A well-formed ACK datagram for block bn arriving from src. -/
def ackEvent (src : SockAddr) (bn : Nat) : NetEvent :=
  .datagram src (0 :: 4 :: bn / 256 :: bn % 256 :: [])

/-- A well-formed DATA datagram for block bn with the given payload
arriving from src. -/
def dataEvent (src : SockAddr) (bn : Nat) (p : List Nat) : NetEvent :=
  .datagram src (0 :: 3 :: bn / 256 :: bn % 256 :: p)

/-- Network schedule in which the peer immediately acknowledges every
block a send-file run emits: one ACK per full block, and one for the
trailing empty block when the file size is an exact multiple of the
blocksize. -/
def fullAckEvents (src : SockAddr) (file : List Nat) (bs : Nat) : List NetEvent :=
  ((List.range' 1 (nBlocks file bs)).map fun i => ackEvent src (i % 65536))
    ++ (if file.length % bs = 0 then
          [ackEvent src ((nBlocks file bs % 65536 + 1) % 65536)]
        else [])

/-! Helper lemmas about the event primitives.  These are shared
infrastructure for the claim theorems below. -/

theorem receivePacket_ackEvent (src : SockAddr) (bn : Nat) :
    receivePacket (some src) (some .Ack) (ackEvent src bn) =
      .ok (.Ack (0 :: 4 :: bn / 256 :: bn % 256 :: [])) := by
  simp [receivePacket, receivePacketFrom, ackEvent, tryFromBuf, opcode, u16be,
    TftpAck.checkFromSlice, TftpPacket.packetKind, Except.map,
    OPCODE_RRQ, OPCODE_WRQ, OPCODE_ACK, OPCODE_OACK, OPCODE_DATA]

theorem ackBlocknum_bytes (bn : Nat) :
    TftpPacket.ackBlocknum (.Ack (0 :: 4 :: bn / 256 :: bn % 256 :: [])) = bn := by
  simp [TftpPacket.ackBlocknum, u16be]
  omega

theorem sarLoop_ack (src : SockAddr) (bn a s : Nat) (rest : List NetEvent) :
    sarLoop false (some src) bn a s (ackEvent src bn :: rest) = some (.ok (), s + 1, rest) := by
  simp [sarLoop, receivePacket_ackEvent, ackBlocknum_bytes]

theorem sarLoop_timeout (peer : Option SockAddr) (bn a s : Nat) (rest : List NetEvent) :
    sarLoop false peer bn a s (NetEvent.timeout :: rest) =
      if a > DEFAULT_RETRANSMIT_ATTEMPTS then some (.error .Timeout, s + 1, rest)
      else sarLoop false peer bn (a + 1) (s + 1) rest := by
  simp [sarLoop, receivePacket, receivePacketFrom]

theorem sarLoop_all_timeouts (peer : Option SockAddr) (bn : Nat) :
    ∀ j, j ≤ 6 → ∀ s (rest : List NetEvent),
      sarLoop false peer bn (6 - j) s (List.replicate (j + 1) NetEvent.timeout ++ rest) =
        some (.error .Timeout, s + (j + 1), rest) := by
  intro j
  induction j with
  | zero =>
    intro _ s rest
    have h6 : 6 - 0 > DEFAULT_RETRANSMIT_ATTEMPTS := by
      unfold DEFAULT_RETRANSMIT_ATTEMPTS; omega
    rw [List.replicate_succ, List.replicate_zero, List.cons_append, List.nil_append,
      sarLoop_timeout, if_pos h6]
  | succ j ih =>
    intro hj s rest
    have h1 : 6 - (j + 1) + 1 = 6 - j := by omega
    have h2 : ¬ (6 - (j + 1) > DEFAULT_RETRANSMIT_ATTEMPTS) := by
      unfold DEFAULT_RETRANSMIT_ATTEMPTS; omega
    have harith : s + 1 + (j + 1) = s + (j + 1 + 1) := by omega
    rw [List.replicate_succ, List.cons_append, sarLoop_timeout, if_neg h2, h1,
      ih (by omega) (s + 1) rest, harith]

theorem sarLoop_timeouts_then_ack (src : SockAddr) (bn : Nat) :
    ∀ k a s, a + k ≤ 6 → ∀ (rest : List NetEvent),
      sarLoop false (some src) bn a s
        (List.replicate k NetEvent.timeout ++ ackEvent src bn :: rest) =
        some (.ok (), s + (k + 1), rest) := by
  intro k
  induction k with
  | zero =>
    intro a s _ rest
    simp [sarLoop_ack]
  | succ k ih =>
    intro a s h rest
    have h2 : ¬ (a > DEFAULT_RETRANSMIT_ATTEMPTS) := by
      unfold DEFAULT_RETRANSMIT_ATTEMPTS; omega
    have harith : s + 1 + (k + 1) = s + (k + 1 + 1) := by omega
    rw [List.replicate_succ, List.cons_append, sarLoop_timeout, if_neg h2,
      ih (a + 1) (s + 1) (by omega) rest, harith]

theorem receivePacket_dataEvent (peer : SockAddr) (bn : Nat) (p : List Nat) :
    receivePacket (some peer) (some .Data) (dataEvent peer bn p) =
      .ok (.Data (0 :: 3 :: bn / 256 :: bn % 256 :: p)) := by
  have hl : ¬ (p.length + 1 + 1 + 1 + 1 < 4) := by omega
  simp [receivePacket, receivePacketFrom, dataEvent, tryFromBuf, opcode, u16be,
    TftpData.checkFromSlice, TftpPacket.packetKind, Except.map, hl,
    OPCODE_RRQ, OPCODE_WRQ, OPCODE_ACK, OPCODE_OACK, OPCODE_DATA]

theorem receivePacket_dataEvent_wrongSrc (peer src : SockAddr) (h : src ≠ peer)
    (bn : Nat) (p : List Nat) :
    receivePacket (some peer) (some .Data) (dataEvent src bn p) =
      .error .UnknownTid := by
  have h2 : ¬ (peer = src) := fun he => h he.symm
  have hl : ¬ (p.length + 1 + 1 + 1 + 1 < 4) := by omega
  simp [receivePacket, receivePacketFrom, dataEvent, tryFromBuf, opcode, u16be,
    TftpData.checkFromSlice, TftpPacket.packetKind, Except.map, h2, hl,
    OPCODE_RRQ, OPCODE_WRQ, OPCODE_ACK, OPCODE_OACK, OPCODE_DATA]

theorem dataBlocknum_bytes (bn : Nat) (p : List Nat) :
    TftpPacket.dataBlocknum (.Data (0 :: 3 :: bn / 256 :: bn % 256 :: p)) = bn := by
  simp [TftpPacket.dataBlocknum, u16be]
  omega

theorem dataPayload_bytes (bn : Nat) (p : List Nat) :
    TftpPacket.dataPayload (.Data (0 :: 3 :: bn / 256 :: bn % 256 :: p)) = p := rfl

theorem receiveLoop_skip (peer : SockAddr) (bs blocknum b : Nat) (p : List Nat)
    (rest : List NetEvent) (h : b ≠ (blocknum + 1) % 65536) :
    receiveLoop false (some peer) bs blocknum (dataEvent peer b p :: rest) =
      receiveLoop false (some peer) bs blocknum rest := by
  rw [receiveLoop, if_neg (by simp), receivePacket_dataEvent]
  simp only [dataBlocknum_bytes]
  rw [if_pos h]

theorem receiveLoop_accept_short (peer : SockAddr) (bs blocknum : Nat) (p : List Nat)
    (rest : List NetEvent) (hp : p.length < bs) :
    receiveLoop false (some peer) bs blocknum
        (dataEvent peer ((blocknum + 1) % 65536) p :: rest) =
      ⟨[p], [(blocknum + 1) % 65536], [], .done⟩ := by
  rw [receiveLoop, if_neg (by simp), receivePacket_dataEvent]
  simp only [dataBlocknum_bytes, dataPayload_bytes, ite_not, if_true]
  rw [if_pos hp]

theorem receiveLoop_recvError (peer : Option SockAddr) (bs blocknum : Nat) (e : NetEvent)
    (rest : List NetEvent) (er : ReceiveError)
    (h : receivePacket peer (some .Data) e = .error er) :
    receiveLoop false peer bs blocknum (e :: rest) = ⟨[], [], [], .dropped er⟩ := by
  rw [receiveLoop, if_neg (by simp), h]

theorem sendBlocks_all_acked (src : SockAddr) (file : List Nat) (bs : Nat) :
    ∀ count base (evs : List NetEvent),
      sendBlocks false (some src) file bs count base
        (((List.range' base count).map fun i => ackEvent src (i % 65536)) ++ evs) =
        some (((List.range' base count).map fun i => (i % 65536, chunk file bs i)), true, evs) := by
  intro count
  induction count with
  | zero =>
    intro base evs
    simp [sendBlocks]
  | succ count ih =>
    intro base evs
    rw [List.range'_succ]
    simp only [List.map_cons, List.cons_append]
    rw [sendBlocks, if_neg (by simp)]
    simp only [sendAndReceiveAck, sarLoop_ack, Nat.zero_add]
    rw [ih (base + 1) evs]

theorem sendFile_fullAck (src : SockAddr) (file : List Nat) (bs : Nat) :
    sendFile false (some src) Mode.Octet file bs (fullAckEvents src file bs) =
      some ⟨((List.range' 1 (nBlocks file bs)).map fun i => (i % 65536, chunk file bs i))
        ++ (if file.length % bs = 0 then [((nBlocks file bs % 65536 + 1) % 65536, [])] else []),
        true, []⟩ := by
  have hmode : ¬ (Mode.Octet = Mode.NetAscii) := by decide
  by_cases hrem : file.length % bs = 0
  · have hsb := sendBlocks_all_acked src file bs (nBlocks file bs) 1
      [ackEvent src ((nBlocks file bs % 65536 + 1) % 65536)]
    unfold sendFile
    rw [if_neg hmode]
    simp only [fullAckEvents, if_pos hrem]
    rw [hsb]
    simp only [if_pos hrem, sendAndReceiveAck, sarLoop_ack]
  · have hsb := sendBlocks_all_acked src file bs (nBlocks file bs) 1 []
    rw [List.append_nil] at hsb
    unfold sendFile
    rw [if_neg hmode]
    simp only [fullAckEvents, if_neg hrem, List.append_nil]
    rw [hsb]

/-! Claim theorems. -/

/-- Claim C1: the spec says a datagram whose opcode is 5 parses as an
ERROR packet and that unknown error codes read as NotDefined.  The code
disagrees on both counts: try_from_buf has no arm for opcode 5, so the
concrete ERROR datagram 00 05 00 01 "x" 00 is rejected as
InvalidOpcode 5; TftpError::check_from_slice compares the opcode
against OPCODE_OACK and so rejects the same datagram; and
ErrorCode::try_from rejects the out-of-range code 9 (making error_code,
which unwraps it, panic) instead of mapping it to NotDefined. -/
theorem error_packet_rejected_by_codec :
    tryFromBuf [0, 5, 0, 1, 120, 0] = .error (.InvalidOpcode 5)
    ∧ TftpErrorPkt.checkFromSlice [0, 5, 0, 1, 120, 0] = .error .UnexpectedOpcode
    ∧ ErrorCode.tryFrom 9 = .error .MalformedPacket
    ∧ TftpErrorPkt.errorCode [0, 5, 0, 9, 120, 0] = none
    ∧ Except.error (ParseError.InvalidOpcode 5) ≠
        (Except.ok (TftpPacket.Err [0, 5, 0, 1, 120, 0]) : Except ParseError TftpPacket) := by
  refine ⟨rfl, rfl, rfl, rfl, ?_⟩
  decide

/-- Claim C2, counterexample: with the peer locked to 10.0.0.1:54321 (ip
and port abstracted to 10 and 54321), a DATA from 10:40000 makes the
receive-data loop terminate with UnknownTid while sending no ERROR
packet at all; the claim instead predicts an UnknownTid ERROR to the
offending source and an unaffected (still waiting) transfer. -/
theorem unknown_tid_counterexample :
    receiveLoop false (some ⟨10, 54321⟩) 512 0 [dataEvent ⟨10, 40000⟩ 1 [97]] =
      ⟨[], [], [], .dropped .UnknownTid⟩
    ∧ ([] : List ErrorCode) ≠ [ErrorCode.UnknownTid]
    ∧ RfEnd.dropped ReceiveError.UnknownTid ≠ RfEnd.starved := by
  refine ⟨?_, by decide, by decide⟩
  decide

/-- Claim C2, amended: a datagram from a source other than the locked
peer makes receive_packet return UnknownTid without transmitting
anything to the offending source, and the receive-data loop terminates
on that error (conn.drop), abandoning the in-progress transfer rather
than continuing it. -/
theorem unknown_tid_behaviour (peer src : SockAddr) (bs bn b : Nat) (p : List Nat)
    (rest : List NetEvent) (h : src ≠ peer) :
    receivePacket (some peer) (some .Data) (dataEvent src b p) = .error .UnknownTid
    ∧ receiveLoop false (some peer) bs bn (dataEvent src b p :: rest) =
        ⟨[], [], [], .dropped .UnknownTid⟩ := by
  have h1 := receivePacket_dataEvent_wrongSrc peer src h b p
  exact ⟨h1, receiveLoop_recvError (some peer) bs bn _ rest _ h1⟩

/-- Witness for unknown_tid_behaviour at source 2:2000 against locked
peer 2:1000. -/
theorem unknown_tid_behaviour_witness :
    (⟨2, 2000⟩ : SockAddr) ≠ ⟨2, 1000⟩
    ∧ (receivePacket (some ⟨2, 1000⟩) (some .Data) (dataEvent ⟨2, 2000⟩ 1 [5]) =
        .error .UnknownTid
      ∧ receiveLoop false (some ⟨2, 1000⟩) 8 0 (dataEvent ⟨2, 2000⟩ 1 [5] :: []) =
        ⟨[], [], [], .dropped .UnknownTid⟩) :=
  ⟨by decide, unknown_tid_behaviour ⟨2, 1000⟩ ⟨2, 2000⟩ 8 0 1 [5] [] (by decide)⟩

/-- Claim C3, counterexample: a DATA block that is never acknowledged is
transmitted 7 times, not 5: with an all-timeout schedule the primitive
returns Timeout with a send count of 7, consuming 7 of the 8 offered
timeout events. -/
theorem retransmit_counterexample :
    sendAndReceiveAck false (some ⟨7, 7⟩) 1 (List.replicate 8 NetEvent.timeout) =
      some (.error .Timeout, 7, [NetEvent.timeout])
    ∧ (7 : Nat) ≠ 5 := by
  refine ⟨?_, by decide⟩
  decide

/-- Claim C3, amended: send_and_receive_ack retransmits on every receive
failure, checking attempts against DEFAULT_RETRANSMIT_ATTEMPTS = 5
before incrementing, so an ACK for the outstanding block arriving after
k timeouts (k at most 6) still succeeds with k+1 transmissions, while a
block that is never acknowledged is transmitted 7 times in total
(initial send plus 6 retransmissions) and the 7th consecutive timeout
fails the transfer with Timeout. -/
theorem retransmit_bound (src : SockAddr) (bn k : Nat) (rest : List NetEvent)
    (hk : k ≤ 6) :
    sendAndReceiveAck false (some src) bn
        (List.replicate k NetEvent.timeout ++ ackEvent src bn :: rest) =
      some (.ok (), k + 1, rest)
    ∧ sendAndReceiveAck false (some src) bn
        (List.replicate 7 NetEvent.timeout ++ rest) =
      some (.error .Timeout, 7, rest) := by
  constructor
  · have h := sarLoop_timeouts_then_ack src bn k 0 0 (by omega) rest
    rw [sendAndReceiveAck, h, Nat.zero_add]
  · have h := sarLoop_all_timeouts (some src) bn 6 (by omega) 0 rest
    norm_num at h
    rw [sendAndReceiveAck, h]

/-- Witness for retransmit_bound with three timeouts before the ACK of
block 9. -/
theorem retransmit_bound_witness :
    (3 : Nat) ≤ 6
    ∧ (sendAndReceiveAck false (some ⟨1, 2⟩) 9
          (List.replicate 3 NetEvent.timeout ++ ackEvent ⟨1, 2⟩ 9 :: []) =
        some (.ok (), 3 + 1, [])
      ∧ sendAndReceiveAck false (some ⟨1, 2⟩) 9
          (List.replicate 7 NetEvent.timeout ++ []) =
        some (.error .Timeout, 7, [])) :=
  ⟨by decide, retransmit_bound ⟨1, 2⟩ 9 3 [] (by decide)⟩

/-- Claim C4, counterexample: with blocksize 4, after block 1 is
accepted a retransmitted DATA 1 is silently dropped, not re-ACKed: the
run ACKs [1, 2] where the claim predicts a re-ACK of the duplicate,
i.e. [1, 1, 2].  The payload of the duplicate is indeed not written
again. -/
theorem duplicate_data_counterexample :
    receiveLoop false (some ⟨3, 3⟩) 4 0
        [dataEvent ⟨3, 3⟩ 1 [97, 98, 99, 100],
         dataEvent ⟨3, 3⟩ 1 [97, 98, 99, 100],
         dataEvent ⟨3, 3⟩ 2 [99]] =
      ⟨[[97, 98, 99, 100], [99]], [1, 2], [], .done⟩
    ∧ ([1, 2] : List Nat) ≠ [1, 1, 2] := by
  refine ⟨?_, by decide⟩
  decide

/-- Claim C4, amended: in the receive-data loop every DATA whose block
number differs from the expected next one - including a duplicate of
the previously acknowledged block - is silently dropped: no ACK, no
write, and the loop continues unchanged.  A DATA with the expected
block number is written once and ACKed once (here in the final-block
case). -/
theorem duplicate_data_dropped (peer : SockAddr) (bs bn b : Nat) (p : List Nat)
    (rest : List NetEvent) (hne : b ≠ (bn + 1) % 65536) (hp : p.length < bs) :
    receiveLoop false (some peer) bs bn (dataEvent peer b p :: rest) =
      receiveLoop false (some peer) bs bn rest
    ∧ receiveLoop false (some peer) bs bn (dataEvent peer ((bn + 1) % 65536) p :: rest) =
      ⟨[p], [(bn + 1) % 65536], [], .done⟩ :=
  ⟨receiveLoop_skip peer bs bn b p rest hne,
   receiveLoop_accept_short peer bs bn p rest hp⟩

/-- Witness for duplicate_data_dropped: expected block is 1, the
duplicate block 0 is skipped, the expected block is accepted. -/
theorem duplicate_data_dropped_witness :
    ((0 : Nat) ≠ (0 + 1) % 65536 ∧ (1 : Nat) < 4)
    ∧ (receiveLoop false (some ⟨3, 4⟩) 4 0 (dataEvent ⟨3, 4⟩ 0 [8] :: []) =
        receiveLoop false (some ⟨3, 4⟩) 4 0 []
      ∧ receiveLoop false (some ⟨3, 4⟩) 4 0 (dataEvent ⟨3, 4⟩ ((0 + 1) % 65536) [8] :: []) =
        ⟨[[8]], [(0 + 1) % 65536], [], .done⟩) :=
  ⟨⟨by decide, by decide⟩, duplicate_data_dropped ⟨3, 4⟩ 4 0 0 [8] [] (by decide) (by decide)⟩

/-- Claim C5, counterexample: with DATA block 2 outstanding, a duplicate
ACK for block 1 does not get dropped - the primitive immediately
returns UnexpectedBlockAck after a single transmission, never reaching
the matching ACK 2 that follows in the schedule. -/
theorem duplicate_ack_counterexample :
    sendAndReceiveAck false (some ⟨7, 8⟩) 2 [ackEvent ⟨7, 8⟩ 1, ackEvent ⟨7, 8⟩ 2] =
      some (.error .UnexpectedBlockAck, 1, [ackEvent ⟨7, 8⟩ 2])
    ∧ Except.error ReceiveError.UnexpectedBlockAck ≠
        (Except.ok () : Except ReceiveError Unit) := by
  refine ⟨?_, by decide⟩
  decide

/-- Claim C5, amended: in send_and_receive_ack an ACK whose block number
differs from the outstanding DATA block immediately terminates the call
with UnexpectedBlockAck (failing the transfer); only an ACK carrying
the outstanding block number completes the wait successfully. -/
theorem duplicate_ack_terminates (src : SockAddr) (bn b : Nat) (rest : List NetEvent)
    (hne : b ≠ bn) :
    sendAndReceiveAck false (some src) bn (ackEvent src b :: rest) =
      some (.error .UnexpectedBlockAck, 1, rest)
    ∧ sendAndReceiveAck false (some src) bn (ackEvent src bn :: rest) =
      some (.ok (), 1, rest) := by
  constructor
  · rw [sendAndReceiveAck, sarLoop, if_neg (by simp), receivePacket_ackEvent]
    simp only [ackBlocknum_bytes]
    rw [if_pos hne]
  · have h := sarLoop_ack src bn 0 0 rest
    rw [sendAndReceiveAck, h, Nat.zero_add]

/-- Witness for duplicate_ack_terminates: block 5 outstanding, stray ACK
for block 4. -/
theorem duplicate_ack_terminates_witness :
    (4 : Nat) ≠ 5
    ∧ (sendAndReceiveAck false (some ⟨9, 9⟩) 5 (ackEvent ⟨9, 9⟩ 4 :: []) =
        some (.error .UnexpectedBlockAck, 1, [])
      ∧ sendAndReceiveAck false (some ⟨9, 9⟩) 5 (ackEvent ⟨9, 9⟩ 5 :: []) =
        some (.ok (), 1, [])) :=
  ⟨by decide, duplicate_ack_terminates ⟨9, 9⟩ 5 4 [] (by decide)⟩

/-- Claim C7, counterexample: option negotiation performs no range
check: blksize 7 (below the RFC minimum 8) parses fine and merge_from
adopts it verbatim as the effective blocksize, and timeout 0 (below the
RFC minimum 1) parses fine as well, where the claim predicts failure
with InvalidOption for both. -/
theorem option_range_counterexample :
    parseOptions [(OPT_BLOCKSIZE_IDENT, "7")] = some [TftpOption.Blocksize 7]
    ∧ (TftpOptions.default.mergeFrom [TftpOption.Blocksize 7]).blocksize = 7
    ∧ parseOptions [(OPT_TIMEOUT_IDENT, "0")] = some [TftpOption.Timeout 0]
    ∧ some [TftpOption.Blocksize 7] ≠ (none : Option (List TftpOption)) := by
  refine ⟨?_, by decide, ?_, by decide⟩ <;> decide

/-- Claim C7, amended: parse_options rejects a known key only when its
value fails to parse into the option's integer type (u16 for blksize);
any parseable value, in the RFC range or not, is accepted and adopted
verbatim into the effective options by merge_from. -/
theorem option_parse_no_range_check (v : String) (n : Nat)
    (hsome : parseRadix10 v 65536 = some n) :
    parseOptions [(OPT_BLOCKSIZE_IDENT, v)] = some [TftpOption.Blocksize n]
    ∧ (TftpOptions.default.mergeFrom [TftpOption.Blocksize n]).blocksize = n
    ∧ (parseRadix10 v 65536 = none →
        parseOptions [(OPT_BLOCKSIZE_IDENT, v)] = none) := by
  refine ⟨?_, by simp [TftpOptions.mergeFrom], fun hnone => by rw [hsome] at hnone; cases hnone⟩
  simp [parseOptions, lookupRaw, OPT_BLOCKSIZE_IDENT, OPT_TIMEOUT_IDENT,
    OPT_TRANSFERSIZE_IDENT, hsome]

/-- Witness for option_parse_no_range_check at the out-of-range value
7. -/
theorem option_parse_no_range_check_witness :
    parseRadix10 "7" 65536 = some 7
    ∧ (parseOptions [(OPT_BLOCKSIZE_IDENT, "7")] = some [TftpOption.Blocksize 7]
      ∧ (TftpOptions.default.mergeFrom [TftpOption.Blocksize 7]).blocksize = 7
      ∧ (parseRadix10 "7" 65536 = none →
          parseOptions [(OPT_BLOCKSIZE_IDENT, "7")] = none)) :=
  ⟨by decide, option_parse_no_range_check "7" 7 (by decide)⟩

theorem chunk_length (file : List Nat) (bs i : Nat) (h1 : 1 ≤ i)
    (h2 : i * bs ≤ file.length) : (chunk file bs i).length = bs := by
  have h3 : (i - 1) * bs = i * bs - bs := Nat.sub_one_mul i bs
  have h4 : bs ≤ i * bs := Nat.le_mul_of_pos_left bs (by omega)
  simp [chunk, h3]
  omega

theorem nBlocks_of_exact (file : List Nat) (bs : Nat) (hrem : file.length % bs = 0) :
    nBlocks file bs = file.length / bs := by
  simp [nBlocks, hrem]

/-- Claim C6: for every stream whose length is an exact multiple of the
blocksize - the empty stream included - the send-data loop sends, after
the full-size blocks 1..n, one final empty DATA block numbered one more
(as a u16) than the last full block's number, and the run only
completes once that empty block is acknowledged: with ACKs for the full
blocks only, the empty block times out and the run fails.  The third
conjunct states the shape directly: the payload lengths of the packets
handed to the primitive are bs repeated n times followed by the one
empty payload (for the empty stream that is just the empty DATA, sent
as block 1). -/
theorem send_file_exact_multiple (file : List Nat) (bs : Nat) (src : SockAddr)
    (hrem : file.length % bs = 0) :
    sendFile false (some src) Mode.Octet file bs (fullAckEvents src file bs) =
      some ⟨((List.range' 1 (file.length / bs)).map fun j => (j % 65536, chunk file bs j))
        ++ [((file.length / bs % 65536 + 1) % 65536, [])], true, []⟩
    ∧ sendFile false (some src) Mode.Octet file bs
        (((List.range' 1 (file.length / bs)).map fun j => ackEvent src (j % 65536))
          ++ List.replicate 7 NetEvent.timeout) =
      some ⟨((List.range' 1 (file.length / bs)).map fun j => (j % 65536, chunk file bs j))
        ++ [((file.length / bs % 65536 + 1) % 65536, [])], false, []⟩
    ∧ ((sendFile false (some src) Mode.Octet file bs (fullAckEvents src file bs)).map
        (fun r => r.sent.map (fun pr => pr.2.length))) =
      some (List.replicate (file.length / bs) bs ++ [0]) := by
  have hmode : ¬ (Mode.Octet = Mode.NetAscii) := by decide
  have hn : nBlocks file bs = file.length / bs := nBlocks_of_exact file bs hrem
  refine ⟨?_, ?_, ?_⟩
  · rw [sendFile_fullAck, hn, if_pos hrem]
  · have hsb := sendBlocks_all_acked src file bs (nBlocks file bs) 1
      (List.replicate 7 NetEvent.timeout)
    rw [← hn]
    unfold sendFile
    rw [if_neg hmode]
    rw [hsb]
    simp only [if_pos hrem, sendAndReceiveAck]
    have hto2 : sarLoop false (some src) ((nBlocks file bs % 65536 + 1) % 65536) 0 0
        (List.replicate 7 NetEvent.timeout) = some (.error .Timeout, 7, []) := by
      have hto := sarLoop_all_timeouts (some src) ((nBlocks file bs % 65536 + 1) % 65536) 6
        (by omega) 0 []
      rw [List.append_nil] at hto
      exact hto
    rw [hto2]
  · rw [sendFile_fullAck, hn, if_pos hrem]
    simp only [Option.map_some', Option.some.injEq]
    rw [List.map_append, List.map_map]
    congr 1
    rw [List.eq_replicate_iff]
    refine ⟨by simp, ?_⟩
    intro b hb
    obtain ⟨j, hj, rfl⟩ := List.mem_map.1 hb
    obtain ⟨hj1, hj2⟩ := List.mem_range'_1.1 hj
    have h5 : j * bs ≤ file.length := by
      have h6 : j * bs ≤ (file.length / bs) * bs := Nat.mul_le_mul_right bs (by omega)
      have h7 : (file.length / bs) * bs ≤ file.length := Nat.div_mul_le_self _ _
      omega
    exact chunk_length file bs j hj1 h5

/-- Witness for send_file_exact_multiple at two instances: the empty
stream with blocksize 2 (only the empty DATA, block 1) and a 2-byte
stream with blocksize 2 (DATA 1 with 2 bytes, then the empty DATA 2);
in both, the run fails when the empty block is never acknowledged. -/
theorem send_file_exact_multiple_witness :
    (([] : List Nat).length % 2 = 0 ∧ ([97, 98] : List Nat).length % 2 = 0)
    ∧ (sendFile false (some ⟨0, 1⟩) Mode.Octet [] 2 (fullAckEvents ⟨0, 1⟩ [] 2) =
        some ⟨[(1, [])], true, []⟩
      ∧ sendFile false (some ⟨0, 1⟩) Mode.Octet [] 2 (List.replicate 7 NetEvent.timeout) =
        some ⟨[(1, [])], false, []⟩
      ∧ ((sendFile false (some ⟨0, 1⟩) Mode.Octet [] 2 (fullAckEvents ⟨0, 1⟩ [] 2)).map
          (fun r => r.sent.map (fun pr => pr.2.length))) = some [0])
    ∧ (sendFile false (some ⟨0, 1⟩) Mode.Octet [97, 98] 2 (fullAckEvents ⟨0, 1⟩ [97, 98] 2) =
        some ⟨[(1, [97, 98]), (2, [])], true, []⟩
      ∧ sendFile false (some ⟨0, 1⟩) Mode.Octet [97, 98] 2
          (((List.range' 1 1).map fun j => ackEvent ⟨0, 1⟩ (j % 65536))
            ++ List.replicate 7 NetEvent.timeout) =
        some ⟨[(1, [97, 98]), (2, [])], false, []⟩
      ∧ ((sendFile false (some ⟨0, 1⟩) Mode.Octet [97, 98] 2
            (fullAckEvents ⟨0, 1⟩ [97, 98] 2)).map
          (fun r => r.sent.map (fun pr => pr.2.length))) = some [2, 0]) := by
  have h1 := send_file_exact_multiple [] 2 ⟨0, 1⟩ (by decide)
  have h2 := send_file_exact_multiple [97, 98] 2 ⟨0, 1⟩ (by decide)
  revert h1 h2
  decide

theorem clientGet_data (server remote : SockAddr) (b1 b0 : Nat) (payload : List Nat)
    (evs : List NetEvent) (hip : remote.ip = server.ip) :
    clientGet server (.datagram remote (0 :: 3 :: b1 :: b0 :: payload)) evs =
      some ⟨TftpOptions.default, some server,
        some (receiveFile false (some server) TftpOptions.default.blocksize
          (some payload) evs)⟩ := by
  have hl : ¬ (payload.length + 1 + 1 + 1 + 1 < 4) := by omega
  simp [clientGet, receivePacketFrom, tryFromBuf, opcode, u16be, Except.map,
    TftpData.checkFromSlice, TftpPacket.dataPayload, hl, hip,
    OPCODE_RRQ, OPCODE_WRQ, OPCODE_ACK, OPCODE_OACK, OPCODE_DATA]

/-- Claim C8: when the first server reply to the request is a DATA
packet rather than an OACK, the client keeps the protocol default
options (blocksize 512, timeout 5 s), locks the peer, and the driver
passes the first payload into receive-data, which writes it once, ACKs
block 1 (whatever block-number bytes the packet carried), and ends the
transfer at once when the payload is shorter than the default
blocksize. -/
theorem client_data_fallback (server remote : SockAddr) (b1 b0 : Nat) (payload q : List Nat)
    (evs : List NetEvent) (hip : remote.ip = server.ip) (hq : q.length < 512) :
    clientGet server (.datagram remote (0 :: 3 :: b1 :: b0 :: payload)) evs =
      some ⟨TftpOptions.default, some server,
        some (receiveFile false (some server) 512 (some payload) evs)⟩
    ∧ clientGet server (.datagram remote (0 :: 3 :: b1 :: b0 :: q)) evs =
      some ⟨TftpOptions.default, some server, some ⟨[q], [1], [], RfEnd.done⟩⟩
    ∧ TftpOptions.default.blocksize = 512
    ∧ TftpOptions.default.timeoutSecs = 5 := by
  have hbs : TftpOptions.default.blocksize = 512 := rfl
  refine ⟨?_, ?_, rfl, rfl⟩
  · rw [clientGet_data server remote b1 b0 payload evs hip, hbs]
  · rw [clientGet_data server remote b1 b0 q evs hip, hbs]
    simp [receiveFile, hq]

/-- Witness for client_data_fallback: server ip 9, reply DATA from
9:2000 carrying the 2-byte payload 104 105. -/
theorem client_data_fallback_witness :
    ((⟨9, 2000⟩ : SockAddr).ip = (⟨9, 69⟩ : SockAddr).ip ∧ ([104, 105] : List Nat).length < 512)
    ∧ (clientGet ⟨9, 69⟩ (.datagram ⟨9, 2000⟩ (0 :: 3 :: 0 :: 1 :: [104, 105])) [] =
        some ⟨TftpOptions.default, some ⟨9, 69⟩,
          some (receiveFile false (some ⟨9, 69⟩) 512 (some [104, 105]) [])⟩
      ∧ clientGet ⟨9, 69⟩ (.datagram ⟨9, 2000⟩ (0 :: 3 :: 0 :: 1 :: [104, 105])) [] =
        some ⟨TftpOptions.default, some ⟨9, 69⟩, some ⟨[[104, 105]], [1], [], RfEnd.done⟩⟩
      ∧ TftpOptions.default.blocksize = 512
      ∧ TftpOptions.default.timeoutSecs = 5) := by
  have h := client_data_fallback ⟨9, 69⟩ ⟨9, 2000⟩ 0 1 [104, 105] [104, 105] []
    (by decide) (by decide)
  revert h
  decide

/-- Claim C9: block numbers wrap 65535 to 0.  In a fully acknowledged
send-file run the k-th DATA handed to the retransmission primitive
carries block number (k+1) mod 65536 - the sequence 1, 2, ..., 65535,
0, 1, ... - and the receive loop's expected-block counter follows the
same u16 sequence: at state 65535 it accepts and ACKs block 0 and
silently skips block 1.  An ACK is accepted by the primitive when it
carries exactly the outstanding block number. -/
theorem blocknum_wraparound (file : List Nat) (bs : Nat) (src peer : SockAddr)
    (k : Nat) (p : List Nat) (rest : List NetEvent)
    (hk : k < nBlocks file bs) (hp : p.length < bs) :
    ((sendFile false (some src) Mode.Octet file bs (fullAckEvents src file bs)).map
        (fun r => r.sent[k]?)) = some (some ((k + 1) % 65536, chunk file bs (k + 1)))
    ∧ receiveLoop false (some peer) bs 65535 (dataEvent peer 0 p :: rest) =
        ⟨[p], [0], [], .done⟩
    ∧ receiveLoop false (some peer) bs 65535 (dataEvent peer 1 p :: rest) =
        receiveLoop false (some peer) bs 65535 rest
    ∧ sendAndReceiveAck false (some src) ((k + 1) % 65536)
        (ackEvent src ((k + 1) % 65536) :: rest) = some (.ok (), 1, rest) := by
  refine ⟨?_, ?_, ?_, ?_⟩
  · rw [sendFile_fullAck]
    simp only [Option.map_some']
    rw [List.getElem?_append_left (by simp [hk]), List.getElem?_map,
      List.getElem?_range' 1 1 hk]
    simp [Nat.add_comm 1 k]
  · have h0 : (65535 + 1) % 65536 = 0 := by norm_num
    have h := receiveLoop_accept_short peer bs 65535 p rest hp
    rw [h0] at h
    exact h
  · exact receiveLoop_skip peer bs 65535 1 p rest (by decide)
  · have h := sarLoop_ack src ((k + 1) % 65536) 0 0 rest
    rw [sendAndReceiveAck, h, Nat.zero_add]

/-- Witness for blocknum_wraparound: one-block file, block index 0,
empty payload. -/
theorem blocknum_wraparound_witness :
    ((0 : Nat) < nBlocks [5] 1 ∧ ([] : List Nat).length < 1)
    ∧ (((sendFile false (some ⟨0, 1⟩) Mode.Octet [5] 1 (fullAckEvents ⟨0, 1⟩ [5] 1)).map
          (fun r => r.sent[0]?)) = some (some ((0 + 1) % 65536, chunk [5] 1 (0 + 1)))
      ∧ receiveLoop false (some ⟨0, 2⟩) 1 65535 (dataEvent ⟨0, 2⟩ 0 [] :: []) =
          ⟨[[]], [0], [], .done⟩
      ∧ receiveLoop false (some ⟨0, 2⟩) 1 65535 (dataEvent ⟨0, 2⟩ 1 [] :: []) =
          receiveLoop false (some ⟨0, 2⟩) 1 65535 []
      ∧ sendAndReceiveAck false (some ⟨0, 1⟩) ((0 + 1) % 65536)
          (ackEvent ⟨0, 1⟩ ((0 + 1) % 65536) :: []) = some (.ok (), 1, [])) := by
  have h := blocknum_wraparound [5] 1 ⟨0, 1⟩ ⟨0, 2⟩ 0 [] [] (by decide) (by decide)
  revert h
  decide

/-- Claim C10: the byte-copy helper copies exactly
min(src.len, dst.len) elements from the front of src to the front of
dst, returns that count, preserves the destination length, and leaves
every destination element at or beyond the copied prefix unchanged. -/
theorem copy_spec (src dst : List Nat) (i : Nat) :
    (copy src dst).2 = min src.length dst.length
    ∧ (copy src dst).1.length = dst.length
    ∧ (copy src dst).1[i]? =
        (if i < min src.length dst.length then src[i]? else dst[i]?) := by
  have hmins : min src.length dst.length ≤ src.length := Nat.min_le_left _ _
  have hmind : min src.length dst.length ≤ dst.length := Nat.min_le_right _ _
  have htl : (src.take (min src.length dst.length)).length = min src.length dst.length := by
    rw [List.length_take]
    omega
  refine ⟨rfl, ?_, ?_⟩
  · show (src.take (min src.length dst.length)
      ++ dst.drop (min src.length dst.length)).length = dst.length
    rw [List.length_append, htl, List.length_drop]
    omega
  · show (src.take (min src.length dst.length)
      ++ dst.drop (min src.length dst.length))[i]? = _
    by_cases hi : i < min src.length dst.length
    · rw [if_pos hi, List.getElem?_append_left (by rw [htl]; exact hi),
        List.getElem?_take_of_lt hi]
    · rw [if_neg hi, List.getElem?_append_right (by rw [htl]; omega), htl,
        List.getElem?_drop]
      congr 1
      omega

end Tftp
